import Mathlib

/-!
# Verification of flash-trade/flash-perpetuals price resolution and risk engine

Shallow embedding of the oracle price module (`state/oracle.rs`) and the
instruction handlers `liquidate.rs`, `remove_collateral.rs` and
`get_exit_price_and_fee.rs`, with theorems checking the natural-language
specification against the code.

Machine integers are modelled as `Nat`/`Int` with explicit range checks
mirroring the checked arithmetic of the source's `math` module; fallible
code returns `Except Err`.
-/

namespace Flash

/-- Error taxonomy of the program (spec §7).  `MathOverflow` is the generic
checked-arithmetic failure; `DivisionByZero` refines it to mark the
zero-divisor case of checked division so that its unreachability can be
stated. -/
inductive Err where
  | MathOverflow
  | DivisionByZero
  | InvalidOraclePrice
  | InvalidOracleAccount
  | StaleOraclePrice
  | InstructionNotAllowed
  | InvalidPositionState
  | CustodyAmountLimit
  | MaxLeverage
  | InsufficientFunds
  | InvalidArgument
  deriving DecidableEq, Repr

/-- Largest u64 value. -/
def u64Max : Nat := 2 ^ 64 - 1

/-- Largest u128 value. -/
def u128Max : Nat := 2 ^ 128 - 1

/-- Smallest i32 value. -/
def i32Min : Int := -(2 ^ 31)

/-- Largest i32 value. -/
def i32Max : Int := 2 ^ 31 - 1

/-- Smallest i64 value. -/
def i64Min : Int := -(2 ^ 63)

/-- Largest i64 value. -/
def i64Max : Int := 2 ^ 63 - 1

/-- Modelled from the spec: `math::checked_add` on u64 (source `math.rs` is
not under `src/`); fail-closed on overflow (spec §5, §7). -/
def checkedAddU64 (a b : Nat) : Except Err Nat :=
  if a + b ≤ u64Max then .ok (a + b) else .error .MathOverflow

/-- Modelled from the spec: `math::checked_sub` on u64; fail-closed on
underflow (spec §5, §7). -/
def checkedSubU64 (a b : Nat) : Except Err Nat :=
  if b ≤ a then .ok (a - b) else .error .MathOverflow

/-- Modelled from the spec: `math::checked_mul` on u64. -/
def checkedMulU64 (a b : Nat) : Except Err Nat :=
  if a * b ≤ u64Max then .ok (a * b) else .error .MathOverflow

/-- Modelled from the spec: `math::checked_div` on u64; division by zero is
an arithmetic failure (spec §4.1: "fails on b.m==0"). -/
def checkedDivU64 (a b : Nat) : Except Err Nat :=
  if b = 0 then .error .DivisionByZero else .ok (a / b)

/-- Modelled from the spec: `math::checked_sub` on u128. -/
def checkedSubU128 (a b : Nat) : Except Err Nat :=
  if b ≤ a then .ok (a - b) else .error .MathOverflow

/-- Modelled from the spec: `math::checked_mul` on u128. -/
def checkedMulU128 (a b : Nat) : Except Err Nat :=
  if a * b ≤ u128Max then .ok (a * b) else .error .MathOverflow

/-- Modelled from the spec: `math::checked_div` on u128. -/
def checkedDivU128 (a b : Nat) : Except Err Nat :=
  if b = 0 then .error .DivisionByZero else .ok (a / b)

/-- Modelled from the spec: `math::checked_as_u64`, the checked u128→u64
narrowing. -/
def checkedAsU64 (a : Nat) : Except Err Nat :=
  if a ≤ u64Max then .ok a else .error .MathOverflow

/-- Modelled from the spec: `math::checked_pow(10u64, n)`; fails when the
power exceeds the u64 range. -/
def checkedPow10U64 (n : Nat) : Except Err Nat :=
  if 10 ^ n ≤ u64Max then .ok (10 ^ n) else .error .MathOverflow

/-- Modelled from the spec: `math::checked_pow(10u128, n)`. -/
def checkedPow10U128 (n : Nat) : Except Err Nat :=
  if 10 ^ n ≤ u128Max then .ok (10 ^ n) else .error .MathOverflow

/-- Modelled from the spec: `math::checked_sub` on i32 exponents. -/
def checkedSubI32 (a b : Int) : Except Err Int :=
  if i32Min ≤ a - b ∧ a - b ≤ i32Max then .ok (a - b) else .error .MathOverflow

/-- Modelled from the spec: `math::checked_add` on i32 exponents. -/
def checkedAddI32 (a b : Int) : Except Err Int :=
  if i32Min ≤ a + b ∧ a + b ≤ i32Max then .ok (a + b) else .error .MathOverflow

/-- Modelled from the spec: `math::checked_sub` on i64 timestamps. -/
def checkedSubI64 (a b : Int) : Except Err Int :=
  if i64Min ≤ a - b ∧ a - b ≤ i64Max then .ok (a - b) else .error .MathOverflow

/-- `u64::wrapping_add`: wrapping (telemetry-only) addition, spec §9. -/
def wrappingAddU64 (a b : Nat) : Nat := (a + b) % 2 ^ 64

/-- `u64::saturating_sub` coincides with truncated `Nat` subtraction. -/
def saturatingSubU64 (a b : Nat) : Nat := a - b

/-- `Perpetuals::BPS_POWER` = 10000 (spec §4.2: the basis-point scale). -/
def bpsPower : Nat := 10000

/-- Modelled from the spec: `Perpetuals::USD_DECIMALS`, the fixed USD
exponent (`perpetuals.rs` is not under `src/`; the spec fixes only its
existence, 6 is used here). -/
def usdDecimals : Nat := 6

/-- Modelled from the spec: `Perpetuals::PRICE_DECIMALS`, the fixed entry
price exponent (`perpetuals.rs` is not under `src/`). -/
def priceDecimals : Nat := 6

/-- `OraclePrice`: fixed-point price, value = price × 10^exponent
(`oracle.rs`). -/
structure OraclePrice where
  price : Nat
  exponent : Int
  deriving DecidableEq, Repr

/-- Modelled from the spec: `math::checked_decimal_mul` (spec §4.1
assetAmountToUsd: align the two fixed-point operands, multiply, re-express
at the target exponent truncating, checked end-to-end in u128). -/
def checkedDecimalMul (c1 : Nat) (e1 : Int) (c2 : Nat) (e2 : Int)
    (eT : Int) : Except Err Nat := do
  let p ← checkedMulU128 c1 c2
  let k : Int := e1 + e2 - eT
  if 0 ≤ k then do
    let pw ← checkedPow10U128 k.toNat
    let r ← checkedMulU128 p pw
    checkedAsU64 r
  else do
    let pw ← checkedPow10U128 (-k).toNat
    let r ← checkedDivU128 p pw
    checkedAsU64 r

/-- Modelled from the spec: `math::checked_decimal_div` (spec §4.1
usdToAssetAmount: the inverse conversion using divide, truncating at the
target exponent, checked end-to-end; division by a zero mantissa fails). -/
def checkedDecimalDiv (c1 : Nat) (e1 : Int) (c2 : Nat) (e2 : Int)
    (eT : Int) : Except Err Nat := do
  if c2 = 0 then .error .DivisionByZero
  else
    let k : Int := e1 - e2 - eT
    if 0 ≤ k then do
      let pw ← checkedPow10U128 k.toNat
      let m ← checkedMulU128 c1 pw
      let r ← checkedDivU128 m c2
      checkedAsU64 r
    else do
      let pw ← checkedPow10U128 (-k).toNat
      let d ← checkedMulU128 c2 pw
      let r ← checkedDivU128 c1 d
      checkedAsU64 r

namespace OraclePrice

/-- `OraclePrice::get_asset_amount_usd`: token amount → USD at implied
`USD_DECIMALS` decimals (`oracle.rs` lines 240-251). -/
def getAssetAmountUsd (p : OraclePrice) (tokenAmount : Nat)
    (tokenDecimals : Nat) : Except Err Nat :=
  if tokenAmount = 0 ∨ p.price = 0 then .ok 0
  else
    checkedDecimalMul tokenAmount (-(tokenDecimals : Int)) p.price p.exponent
      (-(usdDecimals : Int))

/-- `OraclePrice::get_token_amount`: USD (implied `USD_DECIMALS`) → token
amount (`oracle.rs` lines 254-265). -/
def getTokenAmount (p : OraclePrice) (assetAmountUsd : Nat)
    (tokenDecimals : Nat) : Except Err Nat :=
  if assetAmountUsd = 0 ∨ p.price = 0 then .ok 0
  else
    checkedDecimalDiv assetAmountUsd (-(usdDecimals : Int)) p.price p.exponent
      (-(tokenDecimals : Int))

/-- `OraclePrice::scale_to_exponent` (`oracle.rs` lines 306-322): divide the
mantissa when scaling up (floor, lossy), multiply when scaling down (exact,
checked). -/
def scaleToExponent (p : OraclePrice) (targetExponent : Int) :
    Except Err OraclePrice :=
  if targetExponent = p.exponent then .ok p
  else do
    let delta ← checkedSubI32 targetExponent p.exponent
    if 0 < delta then do
      let pw ← checkedPow10U64 delta.toNat
      let q ← checkedDivU64 p.price pw
      .ok ⟨q, targetExponent⟩
    else do
      let pw ← checkedPow10U64 (-delta).toNat
      let m ← checkedMulU64 p.price pw
      .ok ⟨m, targetExponent⟩

end OraclePrice

/-- `OracleType` (`oracle.rs`). -/
inductive OracleType where
  | None
  | Custom
  | Pyth
  deriving DecidableEq, Repr

/-- `OracleParams` (`oracle.rs`); account keys are external addressing and
omitted. -/
structure OracleParams where
  oracleType : OracleType
  maxDifferenceThreshold : Nat
  maxPriceError : Nat
  maxPriceAgeSec : Nat
  deriving DecidableEq, Repr

/-- One raw reading from the primary feed: price (i64), confidence,
exponent, publish time, as returned by the feed reader (spec §3
FeedReading). -/
structure PythReading where
  price : Int
  conf : Nat
  expo : Int
  publishTime : Int
  deriving DecidableEq, Repr

/-- The pair of readings a feed supplies: spot and EMA variant (spec §3,
§6: feed reads are synchronous point lookups supplied by the caller). -/
structure PythFeed where
  spot : PythReading
  ema : PythReading
  deriving DecidableEq, Repr

/-- `OraclePrice::get_pyth_price` (`oracle.rs` lines 401-443): computes the
age with checked i64 subtraction, flags staleness instead of failing, then
hard-fails on a non-positive price. -/
def getPythPrice (feed : PythFeed) (maxPriceAgeSec : Nat) (currentTime : Int)
    (useEma : Bool) : Except Err (Nat × Nat × Int × Bool) := do
  let r := if useEma then feed.ema else feed.spot
  let lastUpdateAgeSec ← checkedSubI64 currentTime r.publishTime
  let isPriceStale := decide (lastUpdateAgeSec > (maxPriceAgeSec : Int))
  if r.price ≤ 0 then .error .InvalidOraclePrice
  else .ok (r.price.toNat, r.conf, r.expo, isPriceStale)

/-- `OraclePrice::get_price_diff` (`oracle.rs` lines 193-212).  Both
branches of the source's `if price1 > price2` subtract `price1 - price2`
in checked u128 arithmetic; the embedding keeps the two identical branches
exactly as written, so the else branch underflows whenever
`price1 < price2`. -/
def getPriceDiff (price1 price2 : Nat) : Except Err Nat :=
  if price1 > price2 then do
    let d ← checkedSubU128 price1 price2
    let m ← checkedMulU128 d bpsPower
    let q ← checkedDivU128 m price1
    checkedAsU64 q
  else do
    let d ← checkedSubU128 price1 price2
    let m ← checkedMulU128 d bpsPower
    let q ← checkedDivU128 m price1
    checkedAsU64 q

/-- `OraclePrice::new_from_oracle` (`oracle.rs` lines 88-191): resolves the
feed pair into a `(minPrice, maxPrice, closeOnly)` band.  In the source,
`(-curr_expo) as usize` wraps for a positive exponent, making
`checked_pow` overflow; the embedding renders that as the same arithmetic
failure. -/
def newFromOracle (feed : PythFeed) (oracleParams : OracleParams)
    (currentTime : Int) (isStable : Bool) :
    Except Err (OraclePrice × OraclePrice × Bool) := do
  let (currPrice, currConf, currExpo, isPriceStale) ←
    getPythPrice feed oracleParams.maxPriceAgeSec currentTime false
  if ¬ isPriceStale then
    if isStable then do
      let oneUsd ←
        if 0 ≤ -currExpo then checkedPow10U64 (-currExpo).toNat
        else .error .MathOverflow
      let percDiff ← getPriceDiff oneUsd currPrice
      if percDiff < oracleParams.maxDifferenceThreshold then
        .ok (⟨currPrice, currExpo⟩, ⟨currPrice, currExpo⟩, false)
      else
        if currPrice < oneUsd then
          .ok (⟨currPrice, currExpo⟩, ⟨oneUsd, currExpo⟩, false)
        else
          .ok (⟨oneUsd, currExpo⟩, ⟨currPrice, currExpo⟩, false)
    else do
      let (emaPrice, _, _, _) ←
        getPythPrice feed oracleParams.maxPriceAgeSec currentTime true
      let percDiff ← getPriceDiff currPrice emaPrice
      if percDiff < oracleParams.maxDifferenceThreshold then
        .ok (⟨currPrice, currExpo⟩, ⟨currPrice, currExpo⟩, false)
      else do
        let confNum ← checkedMulU128 currConf bpsPower
        let confBps ← checkedDivU128 confNum currPrice
        if confBps < oracleParams.maxPriceError then do
          let lo ← checkedSubU64 currPrice currConf
          let hi ← checkedAddU64 currPrice currConf
          .ok (⟨lo, currExpo⟩, ⟨hi, currExpo⟩, false)
        else
          if oracleParams.oracleType = OracleType.Custom then
            .error .InvalidOraclePrice
          else do
            let lo ← checkedSubU64 currPrice currConf
            let hi ← checkedAddU64 currPrice currConf
            .ok (⟨lo, currExpo⟩, ⟨hi, currExpo⟩, true)
  else
    if oracleParams.oracleType = OracleType.Custom then
      .error .InvalidOraclePrice
    else
      .error .InvalidOraclePrice

/-- `Side` of a position (`position.rs`, spec §3). -/
inductive Side where
  | Long
  | Short
  deriving DecidableEq, Repr

/-- Modelled from the spec: the `Position` record (spec §3; `position.rs`
is not under `src/`), restricted to the fields the embedded handlers
read.  `price` is the entry price mantissa at `PRICE_DECIMALS`. -/
structure Position where
  side : Side
  sizeUsd : Nat
  collateralUsd : Nat
  collateralAmount : Nat
  lockedAmount : Nat
  price : Nat
  updateTime : Int
  deriving DecidableEq, Repr

/-- Modelled from the spec: the permission flags read by the handlers
(spec §4.4.1, §4.5.1; `perpetuals.rs`/`custody.rs` are not under
`src/`). -/
structure Permissions where
  allowClosePosition : Bool
  allowCollateralWithdrawal : Bool
  deriving DecidableEq, Repr

/-- Modelled from the spec: the custody fee schedule fields the handlers
read (`custody.rs` is not under `src/`). -/
structure FeesRec where
  liquidation : Nat
  protocolShare : Nat
  deriving DecidableEq, Repr

/-- Modelled from the spec: custody fee-revenue counters (spec §3
`collected_fees`). -/
structure CollectedFees where
  liquidationUsd : Nat
  closePositionUsd : Nat
  deriving DecidableEq, Repr

/-- Modelled from the spec: custody asset counters (spec §3
`assets:{owned, collateral, protocol_fees}`). -/
structure AssetsRec where
  owned : Nat
  collateral : Nat
  protocolFees : Nat
  deriving DecidableEq, Repr

/-- Modelled from the spec: custody volume counters (spec §3
`volume_stats`). -/
structure VolumeStats where
  liquidationUsd : Nat
  deriving DecidableEq, Repr

/-- Modelled from the spec: custody open-interest and rolling PnL
counters (spec §3 `trade_stats`). -/
structure TradeStats where
  oiLong : Nat
  oiShort : Nat
  profitUsd : Nat
  lossUsd : Nat
  deriving DecidableEq, Repr

/-- Modelled from the spec: the `Custody` record (spec §3; `custody.rs` is
not under `src/`), restricted to the fields the embedded handlers read or
write.  `key` stands for the account address so that two slots denoting
the same account hold equal records. -/
structure Custody where
  key : Nat
  decimals : Nat
  isStable : Bool
  isVirtual : Bool
  oracle : OracleParams
  permissions : Permissions
  fees : FeesRec
  assets : AssetsRec
  collectedFees : CollectedFees
  volumeStats : VolumeStats
  tradeStats : TradeStats
  deriving DecidableEq, Repr

/-- Modelled from the spec: the Pool policy functions consumed by the
handlers.  Spec §1/§6 treats them as black-box pure functions of the
passed state (`pool.rs` is not under `src/`); the embedding takes them as
explicit function-valued parameters and specifies only how they are
invoked and sequenced. -/
structure PoolPolicy where
  checkLeverage : Position → OraclePrice → OraclePrice → Custody →
    OraclePrice → OraclePrice → Custody → Int → Bool → Except Err Bool
  getCloseAmount : Position → OraclePrice → OraclePrice → Custody →
    OraclePrice → OraclePrice → Custody → Int → Bool →
    Except Err (Nat × Nat × Nat × Nat)
  checkAvailableAmount : Nat → Custody → Except Err Bool
  getFeeAmount : Nat → Nat → Except Err Nat
  getExitPrice : OraclePrice → OraclePrice → Side → Custody →
    Except Err Nat
  getExitFee : Nat → Custody → Except Err Nat
  getCollateralFee : Nat → Custody → Except Err Nat

/-- Modelled from the spec: the custody record helpers invoked by
`liquidate` (`custody.rs` is not under `src/`): `unlock_funds` (spec
§4.4.6), `remove_position` with and without a second custody, and
`update_borrow_rate`, treated as abstract state transformers. -/
structure CustodyFns where
  unlockFunds : Nat → Custody → Except Err Custody
  removePositionNone : Position → Int → Custody → Except Err Custody
  removePositionSome : Position → Int → Custody → Custody →
    Except Err (Custody × Custody)
  updateBorrowRate : Int → Custody → Except Err Custody

/-- Destination of an executed token transfer (spec §6: the
token-movement capability is external; the embedding records the
transfers a call executes). -/
inductive TransferDest where
  | receivingAccount
  | rewardsReceivingAccount
  deriving DecidableEq, Repr

/-- Record mutations and transfers produced by a successful `liquidate`
call.  The position account itself is closed by the runtime
(`close = signer`). -/
structure LiquidateResult where
  custody : Custody
  collateralCustody : Custody
  transfers : List (TransferDest × Nat)
  deriving DecidableEq, Repr

/-- Record mutations and transfers produced by a successful
`remove_collateral` call. -/
structure RemoveCollateralResult where
  custody : Custody
  collateralCustody : Custody
  position : Position
  transfers : List (TransferDest × Nat)
  deriving DecidableEq, Repr

/-- `PriceAndFee` result record (spec §3). -/
structure PriceAndFee where
  price : Nat
  fee : Nat
  deriving DecidableEq, Repr

/-- The protocol-fee skim step of `liquidate` (`liquidate.rs` lines
254-263): pay `protocolFee` out of the custody only if
`check_available_amount` allows, otherwise leave the custody unchanged
without error. -/
def liquidateSkim (policy : PoolPolicy) (protocolFee : Nat) (c : Custody) :
    Except Err Custody := do
  let avail ← policy.checkAvailableAmount protocolFee c
  if avail then do
    let pf ← checkedAddU64 c.assets.protocolFees protocolFee
    let ow ← checkedSubU64 c.assets.owned protocolFee
    .ok { c with assets := { c.assets with protocolFees := pf, owned := ow } }
  else
    .ok c

/-- The fee re-expression step of `liquidate` (`liquidate.rs` lines
185-188): re-express the fee in collateral-token units at the collateral
band's `minPrice` when the side is Short or the asset custody is
virtual. -/
def liquidateFeeAmount (pos : Position) (cu : Custody)
    (collateralTokenMinPrice : OraclePrice) (ccDecimals : Nat)
    (feeAmountUsd feeAmount0 : Nat) : Except Err Nat :=
  if pos.side = Side.Short ∨ cu.isVirtual then
    collateralTokenMinPrice.getTokenAmount feeAmountUsd ccDecimals
  else .ok feeAmount0

/-- The owned-assets adjustment of `liquidate` (`liquidate.rs` lines
240-248): move the signed delta between `total_amount_out` and the
position's posted collateral through the `owned` counter with checked
arithmetic. -/
def liquidateOwnedAdjust (totalAmountOut collateralAmount : Nat)
    (c : Custody) : Except Err Custody :=
  if totalAmountOut > collateralAmount then do
    let amountLost := saturatingSubU64 totalAmountOut collateralAmount
    let ow ← checkedSubU64 c.assets.owned amountLost
    .ok { c with assets := { c.assets with owned := ow } }
  else do
    let amountGained := saturatingSubU64 collateralAmount totalAmountOut
    let ow ← checkedAddU64 c.assets.owned amountGained
    .ok { c with assets := { c.assets with owned := ow } }

/-- `liquidate` (`liquidate.rs` lines 120-327) after the two price bands
have been resolved; the `closeOnly` flags are not passed because the
handler discards them. -/
def liquidateFromBands (policy : PoolPolicy) (fns : CustodyFns)
    (custody collateralCustody : Custody) (position : Position)
    (curtime : Int) (tokenMinPrice tokenMaxPrice : OraclePrice)
    (collateralTokenMinPrice collateralTokenMaxPrice : OraclePrice) :
    Except Err LiquidateResult := do
  let lev ← policy.checkLeverage position tokenMinPrice tokenMaxPrice custody
    collateralTokenMinPrice collateralTokenMaxPrice collateralCustody
    curtime false
  if lev then .error .InvalidPositionState
  else do
    let (totalAmountOut, feeAmount0, profitUsd, lossUsd) ←
      policy.getCloseAmount position tokenMinPrice tokenMaxPrice custody
        collateralTokenMinPrice collateralTokenMaxPrice collateralCustody
        curtime true
    let feeAmountUsd ←
      tokenMaxPrice.getAssetAmountUsd feeAmount0 custody.decimals
    let feeAmount ← liquidateFeeAmount position custody
      collateralTokenMinPrice collateralCustody.decimals feeAmountUsd
      feeAmount0
    let rewardUsd ←
      policy.getFeeAmount custody.fees.liquidation position.sizeUsd
    let reward ←
      collateralTokenMaxPrice.getTokenAmount rewardUsd
        collateralCustody.decimals
    let _remainingAmount ← checkedSubU64 totalAmountOut reward
    let cc1 ← fns.unlockFunds position.lockedAmount collateralCustody
    let avail ← policy.checkAvailableAmount totalAmountOut cc1
    if ¬ avail then .error .CustodyAmountLimit
    else do
      let transfers := [(TransferDest.rewardsReceivingAccount, reward)]
      let newLiqFees :=
        wrappingAddU64 cc1.collectedFees.liquidationUsd feeAmountUsd
      let cc2 := { cc1 with collectedFees :=
        { cc1.collectedFees with liquidationUsd := newLiqFees } }
      let cc3 ←
        liquidateOwnedAdjust totalAmountOut position.collateralAmount cc2
      let collat ← checkedSubU64 cc3.assets.collateral
        position.collateralAmount
      let cc4 := { cc3 with assets := { cc3.assets with
        collateral := collat } }
      let protocolFee ←
        policy.getFeeAmount custody.fees.protocolShare feeAmount
      let cc5 ← liquidateSkim policy protocolFee cc4
      let positionOraclePrice : OraclePrice :=
        ⟨position.price, -(priceDecimals : Int)⟩
      let size ←
        positionOraclePrice.getTokenAmount position.sizeUsd custody.decimals
      if position.side = Side.Long ∧ ¬ custody.isVirtual then do
        let vol ← checkedAddU64 cc5.volumeStats.liquidationUsd
          position.sizeUsd
        let cc6 := { cc5 with volumeStats := { liquidationUsd := vol } }
        let cc7 :=
          if position.side = Side.Long then
            { cc6 with tradeStats := { cc6.tradeStats with
                oiLong := saturatingSubU64 cc6.tradeStats.oiLong size } }
          else
            { cc6 with tradeStats := { cc6.tradeStats with
                oiShort := saturatingSubU64 cc6.tradeStats.oiShort size } }
        let newProfit := wrappingAddU64 cc7.tradeStats.profitUsd profitUsd
        let newLoss := wrappingAddU64 cc7.tradeStats.lossUsd lossUsd
        let cc8 := { cc7 with tradeStats := { cc7.tradeStats with
            profitUsd := newProfit, lossUsd := newLoss } }
        let cc9 ← fns.removePositionNone position curtime cc8
        let cc10 ← fns.updateBorrowRate curtime cc9
        .ok { custody := cc10, collateralCustody := cc10,
              transfers := transfers }
      else do
        let vol ← checkedAddU64 custody.volumeStats.liquidationUsd
          position.sizeUsd
        let cu1 := { custody with volumeStats := { liquidationUsd := vol } }
        let cu2 :=
          if position.side = Side.Long then
            { cu1 with tradeStats := { cu1.tradeStats with
                oiLong := saturatingSubU64 cu1.tradeStats.oiLong size } }
          else
            { cu1 with tradeStats := { cu1.tradeStats with
                oiShort := saturatingSubU64 cu1.tradeStats.oiShort size } }
        let newProfit := wrappingAddU64 cu2.tradeStats.profitUsd profitUsd
        let newLoss := wrappingAddU64 cu2.tradeStats.lossUsd lossUsd
        let cu3 := { cu2 with tradeStats := { cu2.tradeStats with
            profitUsd := newProfit, lossUsd := newLoss } }
        let (cu4, cc6) ← fns.removePositionSome position curtime cu3 cc5
        let cc7 ← fns.updateBorrowRate curtime cc6
        .ok { custody := cu4, collateralCustody := cc7,
              transfers := transfers }

/-- `liquidate` (`liquidate.rs` lines 120-327): permission gate, dual band
resolution (both `closeOnly` flags discarded), then settlement. -/
def liquidate (perm : Permissions) (policy : PoolPolicy) (fns : CustodyFns)
    (custody collateralCustody : Custody) (position : Position)
    (custodyFeed collateralFeed : PythFeed) (curtime : Int) :
    Except Err LiquidateResult := do
  if perm.allowClosePosition && custody.permissions.allowClosePosition then do
    let (tokenMinPrice, tokenMaxPrice, _) ←
      newFromOracle custodyFeed custody.oracle curtime custody.isStable
    let (collateralTokenMinPrice, collateralTokenMaxPrice, _) ←
      newFromOracle collateralFeed collateralCustody.oracle curtime
        collateralCustody.isStable
    liquidateFromBands policy fns custody collateralCustody position curtime
      tokenMinPrice tokenMaxPrice collateralTokenMinPrice
      collateralTokenMaxPrice
  else .error .InstructionNotAllowed

/-- `remove_collateral` (`remove_collateral.rs` lines 117-236) after band
resolution, taking the two resolved bands together with their `closeOnly`
flags. -/
def removeCollateralFromBands (policy : PoolPolicy)
    (custody collateralCustody : Custody) (position : Position)
    (amountUsd : Nat) (curtime : Int)
    (tokenMinPrice tokenMaxPrice : OraclePrice) (tokenCloseOnly : Bool)
    (collateralTokenMinPrice collateralTokenMaxPrice : OraclePrice)
    (collateralTokenCloseOnly : Bool) :
    Except Err RemoveCollateralResult := do
  if tokenCloseOnly || collateralTokenCloseOnly then
    .error .InvalidOraclePrice
  else do
    let feeAmountUsd ← policy.getCollateralFee amountUsd collateralCustody
    let feeAmount ←
      collateralTokenMinPrice.getTokenAmount feeAmountUsd
        collateralCustody.decimals
    let collateral ←
      collateralTokenMaxPrice.getTokenAmount amountUsd
        collateralCustody.decimals
    let updatedCollateral ← checkedSubU64 collateral feeAmount
    if collateral > position.collateralAmount then
      .error .InsufficientFunds
    else do
      let colUsd ← checkedSubU64 position.collateralUsd amountUsd
      let colAmt ← checkedSubU64 position.collateralAmount collateral
      let position1 := { position with
        updateTime := curtime
        collateralUsd := colUsd
        collateralAmount := colAmt }
      let lev ← policy.checkLeverage position1 tokenMinPrice tokenMaxPrice
        custody collateralTokenMinPrice collateralTokenMaxPrice
        collateralCustody curtime true
      if ¬ lev then .error .MaxLeverage
      else do
        let transfers := [(TransferDest.receivingAccount, updatedCollateral)]
        let newCloseFees :=
          wrappingAddU64 collateralCustody.collectedFees.closePositionUsd
            feeAmountUsd
        let cc1 := { collateralCustody with collectedFees :=
          { collateralCustody.collectedFees with
            closePositionUsd := newCloseFees } }
        let ccColl ← checkedSubU64 cc1.assets.collateral collateral
        let cc2 := { cc1 with assets := { cc1.assets with
          collateral := ccColl } }
        let protocolFee ←
          policy.getFeeAmount custody.fees.protocolShare feeAmount
        let pf ← checkedAddU64 cc2.assets.protocolFees protocolFee
        let cc3 := { cc2 with assets := { cc2.assets with
          protocolFees := pf } }
        let custodyFinal :=
          if position1.side = Side.Long ∧ ¬ custody.isVirtual then cc3
          else custody
        .ok { custody := custodyFinal, collateralCustody := cc3,
              position := position1, transfers := transfers }

/-- `remove_collateral` (`remove_collateral.rs` lines 117-236): permission
gate, argument validation, dual band resolution, then settlement. -/
def removeCollateral (perm : Permissions) (policy : PoolPolicy)
    (custody collateralCustody : Custody) (position : Position)
    (amountUsd : Nat) (custodyFeed collateralFeed : PythFeed)
    (curtime : Int) : Except Err RemoveCollateralResult := do
  if perm.allowCollateralWithdrawal &&
      custody.permissions.allowCollateralWithdrawal then
    if amountUsd = 0 ∨ amountUsd ≥ position.collateralUsd then
      .error .InvalidArgument
    else do
      let (tokenMinPrice, tokenMaxPrice, tokenCloseOnly) ←
        newFromOracle custodyFeed custody.oracle curtime custody.isStable
      let (collateralTokenMinPrice, collateralTokenMaxPrice,
          collateralTokenCloseOnly) ←
        newFromOracle collateralFeed collateralCustody.oracle curtime
          collateralCustody.isStable
      removeCollateralFromBands policy custody collateralCustody position
        amountUsd curtime tokenMinPrice tokenMaxPrice tokenCloseOnly
        collateralTokenMinPrice collateralTokenMaxPrice
        collateralTokenCloseOnly
  else .error .InstructionNotAllowed

/-- `get_exit_price_and_fee` (`get_exit_price_and_fee.rs` lines 83-123):
the collateral band is destructured to its `minPrice` only, which is the
price used for the fee conversion on the Short/virtual path. -/
def getExitPriceAndFee (policy : PoolPolicy)
    (custody collateralCustody : Custody) (position : Position)
    (custodyFeed collateralFeed : PythFeed) (curtime : Int) :
    Except Err PriceAndFee := do
  let (tokenMinPrice, tokenMaxPrice, _) ←
    newFromOracle custodyFeed custody.oracle curtime custody.isStable
  let (collateralTokenMinPrice, _, _) ←
    newFromOracle collateralFeed collateralCustody.oracle curtime
      collateralCustody.isStable
  let price ← policy.getExitPrice tokenMinPrice tokenMaxPrice position.side
    custody
  let fee0 ← policy.getExitFee position.sizeUsd custody
  if position.side = Side.Short ∨ custody.isVirtual then do
    let feeAmountUsd ← tokenMaxPrice.getAssetAmountUsd fee0 custody.decimals
    let fee ← collateralTokenMinPrice.getTokenAmount feeAmountUsd
      collateralCustody.decimals
    .ok { price := price, fee := fee }
  else .ok { price := price, fee := fee0 }

/-- Modelled from the spec: the exit fee as the SPEC claims it is computed
(spec §4.3: base exit fee "converted to collateral-token units at
`maxPrice` of the collateral feed"), to be compared with
`getExitPriceAndFee`, which uses the collateral band's `minPrice`. -/
def specExitFeeAtCollateralMax (policy : PoolPolicy)
    (custody collateralCustody : Custody) (position : Position)
    (custodyFeed collateralFeed : PythFeed) (curtime : Int) :
    Except Err Nat := do
  let (_, tokenMaxPrice, _) ←
    newFromOracle custodyFeed custody.oracle curtime custody.isStable
  let (_, collateralTokenMaxPrice, _) ←
    newFromOracle collateralFeed collateralCustody.oracle curtime
      collateralCustody.isStable
  let fee0 ← policy.getExitFee position.sizeUsd custody
  let feeAmountUsd ← tokenMaxPrice.getAssetAmountUsd fee0 custody.decimals
  collateralTokenMaxPrice.getTokenAmount feeAmountUsd
    collateralCustody.decimals

/-! ## Helper lemmas about `Except` sequencing -/

theorem bindOk {α β : Type} (a : α) (f : α → Except Err β) :
    (Except.ok a : Except Err α) >>= f = f a := rfl

theorem bindErr {α β : Type} (e : Err) (f : α → Except Err β) :
    (Except.error e : Except Err α) >>= f = Except.error e := rfl

theorem bindOkIff {α β : Type} {x : Except Err α} {f : α → Except Err β}
    {b : β} : x >>= f = .ok b ↔ ∃ a, x = .ok a ∧ f a = .ok b := by
  cases x with
  | ok a => simp [bindOk]
  | error e => simp [bindErr]

/-! ## C9: `scale_to_exponent` round trip -/

/-- C9: scaling an `OraclePrice` down to exponent `p.exponent - d` (the
exact, multiplying direction) and back up to `p.exponent` recovers the
original mantissa and exponent, provided the power of ten and the
intermediate multiplication stay within u64 range. -/
theorem scaleToExponent_round_trip (p : OraclePrice) (d : Nat) (hd : 0 < d)
    (hpow : 10 ^ d ≤ u64Max) (hmul : p.price * 10 ^ d ≤ u64Max) :
    (p.scaleToExponent (p.exponent - (d : Int))) >>=
      (fun q => q.scaleToExponent p.exponent) = .ok p := by
  have hd19 : d ≤ 19 := by
    by_contra h
    push_neg at h
    have h20 : (10 : Nat) ^ 20 ≤ 10 ^ d := Nat.pow_le_pow_right (by norm_num) h
    have h20' : ¬ (10 : Nat) ^ 20 ≤ u64Max := by decide
    exact h20' (le_trans h20 hpow)
  have hne1 : p.exponent - (d : Int) ≠ p.exponent := by omega
  have hsub1 : checkedSubI32 (p.exponent - (d : Int)) p.exponent
      = .ok (-(d : Int)) := by
    unfold checkedSubI32 i32Min i32Max
    rw [if_pos (by constructor <;> omega)]
    congr 1
    ring
  have hpw : checkedPow10U64 d = .ok (10 ^ d) := by
    unfold checkedPow10U64
    rw [if_pos hpow]
  have hml : checkedMulU64 p.price (10 ^ d) = .ok (p.price * 10 ^ d) := by
    unfold checkedMulU64
    rw [if_pos hmul]
  unfold OraclePrice.scaleToExponent
  rw [if_neg hne1, hsub1, bindOk]
  rw [if_neg (by omega : ¬ (0 : Int) < -(d : Int))]
  simp only [neg_neg, Int.toNat_natCast]
  rw [hpw, bindOk, hml, bindOk, bindOk]
  have hne2 : p.exponent ≠ p.exponent - (d : Int) := by omega
  rw [if_neg hne2]
  have hsub2 : checkedSubI32 p.exponent (p.exponent - (d : Int))
      = .ok ((d : Int)) := by
    unfold checkedSubI32 i32Min i32Max
    rw [if_pos (by constructor <;> omega)]
    congr 1
    ring
  rw [hsub2, bindOk]
  rw [if_pos (by omega : (0 : Int) < (d : Int))]
  simp only [Int.toNat_natCast]
  rw [hpw, bindOk]
  have hdiv : checkedDivU64 (p.price * 10 ^ d) (10 ^ d) = .ok p.price := by
    unfold checkedDivU64
    rw [if_neg (by positivity)]
    rw [Nat.mul_div_cancel p.price (by positivity)]
  rw [hdiv, bindOk]

/-- Witness for C9 at `p = ⟨123, -3⟩`, `d = 2`. -/
theorem scaleToExponent_round_trip_witness :
    ((⟨123, -3⟩ : OraclePrice).scaleToExponent ((-3 : Int) - (2 : Int))) >>=
      (fun q => q.scaleToExponent (-3)) = .ok ⟨123, -3⟩ := by
  have h := scaleToExponent_round_trip ⟨123, -3⟩ 2 (by decide) (by decide)
    (by decide)
  exact h

theorem bindNeErr {α β : Type} {x : Except Err α} {f : α → Except Err β}
    {e : Err} (hx : x ≠ .error e) (hf : ∀ a, x = .ok a → f a ≠ .error e) :
    x >>= f ≠ .error e := by
  cases x with
  | ok a => rw [bindOk]; exact hf a rfl
  | error e' =>
    rw [bindErr]
    intro h
    have he : e' = e := by injection h
    exact hx (by rw [he])

theorem checkedPow10U128_ne_divZero (n : Nat) :
    checkedPow10U128 n ≠ .error .DivisionByZero := by
  unfold checkedPow10U128
  split <;> simp

theorem checkedMulU128_ne_divZero (a b : Nat) :
    checkedMulU128 a b ≠ .error .DivisionByZero := by
  unfold checkedMulU128
  split <;> simp

theorem checkedAsU64_ne_divZero (a : Nat) :
    checkedAsU64 a ≠ .error .DivisionByZero := by
  unfold checkedAsU64
  split <;> simp

theorem checkedDivU128_ne_divZero {b : Nat} (a : Nat) (hb : b ≠ 0) :
    checkedDivU128 a b ≠ .error .DivisionByZero := by
  unfold checkedDivU128
  rw [if_neg hb]
  simp

theorem checkedPow10U128_ok {n c : Nat} (h : checkedPow10U128 n = .ok c) :
    c = 10 ^ n := by
  unfold checkedPow10U128 at h
  split at h
  · injection h with h
    exact h.symm
  · cases h

/-! ## C10: zero guards of the USD/token conversions -/

theorem checkedDecimalMul_ne_divZero (c1 : Nat) (e1 : Int) (c2 : Nat)
    (e2 : Int) (eT : Int) :
    checkedDecimalMul c1 e1 c2 e2 eT ≠ .error .DivisionByZero := by
  unfold checkedDecimalMul
  refine bindNeErr (checkedMulU128_ne_divZero _ _) fun p _ => ?_
  dsimp only
  split
  · refine bindNeErr (checkedPow10U128_ne_divZero _) fun pw _ => ?_
    exact bindNeErr (checkedMulU128_ne_divZero _ _)
      fun r _ => checkedAsU64_ne_divZero r
  · refine bindNeErr (checkedPow10U128_ne_divZero _) fun pw hpw => ?_
    have hpw0 : pw ≠ 0 := by
      rw [checkedPow10U128_ok hpw]
      positivity
    exact bindNeErr (checkedDivU128_ne_divZero _ hpw0)
      fun r _ => checkedAsU64_ne_divZero r

theorem checkedDecimalDiv_ne_divZero (c1 : Nat) (e1 : Int) {c2 : Nat}
    (e2 : Int) (eT : Int) (hc2 : c2 ≠ 0) :
    checkedDecimalDiv c1 e1 c2 e2 eT ≠ .error .DivisionByZero := by
  unfold checkedDecimalDiv
  rw [if_neg hc2]
  dsimp only
  split
  · refine bindNeErr (checkedPow10U128_ne_divZero _) fun pw _ => ?_
    refine bindNeErr (checkedMulU128_ne_divZero _ _) fun m _ => ?_
    exact bindNeErr (checkedDivU128_ne_divZero _ hc2)
      fun r _ => checkedAsU64_ne_divZero r
  · refine bindNeErr (checkedPow10U128_ne_divZero _) fun pw hpw => ?_
    have hpw0 : pw ≠ 0 := by
      rw [checkedPow10U128_ok hpw]
      positivity
    refine bindNeErr (checkedMulU128_ne_divZero _ _) fun d hd => ?_
    have hd' : d = c2 * pw := by
      unfold checkedMulU128 at hd
      split at hd
      · injection hd with hd
        exact hd.symm
      · cases hd
    have hd0 : d ≠ 0 := by
      rw [hd']
      exact Nat.mul_ne_zero hc2 hpw0
    exact bindNeErr (checkedDivU128_ne_divZero _ hd0)
      fun r _ => checkedAsU64_ne_divZero r

/-- C10: `get_token_amount` and `get_asset_amount_usd` return `Ok(0)`
when the input amount or the price mantissa is zero, and neither function
can fail with a division by zero (a zero price never reaches the
underlying division). -/
theorem conversion_zero_guard (p : OraclePrice) (amount : Nat)
    (decimals : Nat) :
    ((amount = 0 ∨ p.price = 0) →
      p.getTokenAmount amount decimals = .ok 0 ∧
      p.getAssetAmountUsd amount decimals = .ok 0) ∧
    p.getTokenAmount amount decimals ≠ .error .DivisionByZero ∧
    p.getAssetAmountUsd amount decimals ≠ .error .DivisionByZero := by
  refine ⟨fun h => ⟨?_, ?_⟩, ?_, ?_⟩
  · unfold OraclePrice.getTokenAmount
    rw [if_pos h]
  · unfold OraclePrice.getAssetAmountUsd
    rw [if_pos h]
  · unfold OraclePrice.getTokenAmount
    split
    · simp
    · next h =>
      push_neg at h
      exact checkedDecimalDiv_ne_divZero _ _ _ _ h.2
  · unfold OraclePrice.getAssetAmountUsd
    split
    · simp
    · exact checkedDecimalMul_ne_divZero _ _ _ _ _

/-- Witness for C10 at a zero price mantissa. -/
theorem conversion_zero_guard_witness :
    (⟨0, -6⟩ : OraclePrice).getTokenAmount 5 6 = .ok 0 ∧
    (⟨0, -6⟩ : OraclePrice).getAssetAmountUsd 5 6 = .ok 0 :=
  (conversion_zero_guard ⟨0, -6⟩ 5 6).1 (Or.inr rfl)

/-! ## C1: stablecoin banding at the spec's own test vector -/

/-- The spec's §8 stablecoin test vector: price mantissa 1_000_100 at
exponent -6 (1.0001 USD), a fresh reading. -/
def stableTestFeed : PythFeed :=
  { spot := { price := 1000100, conf := 10, expo := -6, publishTime := 100 },
    ema := { price := 1000100, conf := 10, expo := -6, publishTime := 100 } }

/-- Oracle parameters for the stablecoin test vector: 50 bps difference
threshold. -/
def stableTestParams : OracleParams :=
  { oracleType := .Pyth, maxDifferenceThreshold := 50, maxPriceError := 100,
    maxPriceAgeSec := 60 }

/-- C1: at the spec's own stablecoin test vector the resolution does NOT
return the tight band `[1_000_100, 1_000_100]` but aborts with an
arithmetic underflow: `get_price_diff(one_usd, curr_price)` subtracts
`price1 - price2` in both branches of its `if price1 > price2`, so a
price above the peg underflows the checked u128 subtraction. -/
theorem stable_banding_underflows :
    newFromOracle stableTestFeed stableTestParams 100 true
      = .error .MathOverflow := rfl

/-! ## C7: staleness is a hard failure -/

/-- C7: whenever the primary reading's age exceeds `max_price_age_sec`,
price resolution fails with `InvalidOraclePrice` for every feed kind —
the custom-fallback path is an unimplemented hard failure as well — and
no band is produced. -/
theorem stale_price_fails (feed : PythFeed) (params : OracleParams)
    (t : Int) (isStable : Bool)
    (hlo : i64Min ≤ t - feed.spot.publishTime)
    (hhi : t - feed.spot.publishTime ≤ i64Max)
    (hstale : t - feed.spot.publishTime > (params.maxPriceAgeSec : Int)) :
    newFromOracle feed params t isStable = .error .InvalidOraclePrice := by
  have hsub : checkedSubI64 t feed.spot.publishTime
      = .ok (t - feed.spot.publishTime) := by
    unfold checkedSubI64
    rw [if_pos ⟨hlo, hhi⟩]
  have hpy : getPythPrice feed params.maxPriceAgeSec t false
      = .error .InvalidOraclePrice ∨
      getPythPrice feed params.maxPriceAgeSec t false
      = .ok (feed.spot.price.toNat, feed.spot.conf, feed.spot.expo, true) := by
    unfold getPythPrice
    simp only [Bool.false_eq_true, if_false, hsub, bindOk]
    rw [decide_eq_true hstale]
    split
    · exact Or.inl rfl
    · exact Or.inr rfl
  unfold newFromOracle
  rcases hpy with h | h
  · rw [h, bindErr]
  · simp only [h, bindOk]
    rw [if_neg (by simp)]
    exact ite_self _

/-- Witness for C7: a reading 100 seconds old against a 60-second age
limit. -/
theorem stale_price_fails_witness :
    newFromOracle stableTestFeed stableTestParams 200 false
      = .error .InvalidOraclePrice :=
  stale_price_fails stableTestFeed stableTestParams 200 false (by decide)
    (by decide) (by decide)

/-! ## C8: remove_collateral argument validation -/

/-- C8: `remove_collateral` fails with `InvalidArgument` whenever the
requested USD amount is zero or at least the position's posted
`collateral_usd` (granting the permission gate passes, which precedes the
argument check). -/
theorem remove_collateral_rejects_bad_amount (perm : Permissions)
    (policy : PoolPolicy) (custody collateralCustody : Custody)
    (position : Position) (amountUsd : Nat)
    (custodyFeed collateralFeed : PythFeed) (curtime : Int)
    (hperm : perm.allowCollateralWithdrawal = true)
    (hperm2 : custody.permissions.allowCollateralWithdrawal = true)
    (harg : amountUsd = 0 ∨ amountUsd ≥ position.collateralUsd) :
    removeCollateral perm policy custody collateralCustody position
      amountUsd custodyFeed collateralFeed curtime
      = .error .InvalidArgument := by
  unfold removeCollateral
  rw [hperm, hperm2]
  simp only [Bool.and_self, if_true]
  rw [if_pos harg]

/-! ## Concrete fixtures used by witnesses and counterexamples -/

/-- A concrete pool policy instance: the leverage check simply returns the
mode flag it is passed (false for liquidation's pre-check, true for
withdrawal's post-check), everything else returns fixed values. -/
def exPolicy : PoolPolicy :=
  { checkLeverage := fun _ _ _ _ _ _ _ _ mode => .ok mode
    getCloseAmount := fun _ _ _ _ _ _ _ _ _ => .ok (0, 0, 0, 0)
    checkAvailableAmount := fun _ _ => .ok true
    getFeeAmount := fun _ _ => .ok 0
    getExitPrice := fun _ _ _ _ => .ok 0
    getExitFee := fun _ _ => .ok 1000
    getCollateralFee := fun _ _ => .ok 0 }

/-- Concrete custody helper functions acting as the identity. -/
def exFns : CustodyFns :=
  { unlockFunds := fun _ c => .ok c
    removePositionNone := fun _ _ c => .ok c
    removePositionSome := fun _ _ a b => .ok (a, b)
    updateBorrowRate := fun _ c => .ok c }

/-- A fresh on-peg stable reading: resolves to the tight band
`[1_000_000, 1_000_000]` at exponent -6. -/
def exStableFeed : PythFeed :=
  { spot := { price := 1000000, conf := 10, expo := -6, publishTime := 100 },
    ema := { price := 1000000, conf := 10, expo := -6, publishTime := 100 } }

/-- A volatile reading whose spot (2000·10⁻² = 20.00) and EMA (10.00)
disagree by far more than the threshold while the confidence ratio 500 bps
exceeds `max_price_error` = 100: resolves to the close-only band
`[1900, 2100]` at exponent -2. -/
def exVolatileFeed : PythFeed :=
  { spot := { price := 2000, conf := 100, expo := -2, publishTime := 100 },
    ema := { price := 1000, conf := 50, expo := -2, publishTime := 100 } }

/-- A stable, non-virtual custody with all permissions granted. -/
def exCustody : Custody :=
  { key := 1, decimals := 6, isStable := true, isVirtual := false
    oracle := stableTestParams
    permissions := { allowClosePosition := true,
                     allowCollateralWithdrawal := true }
    fees := { liquidation := 0, protocolShare := 0 }
    assets := { owned := 1000000, collateral := 0, protocolFees := 0 }
    collectedFees := { liquidationUsd := 0, closePositionUsd := 0 }
    volumeStats := { liquidationUsd := 0 }
    tradeStats := { oiLong := 0, oiShort := 0, profitUsd := 0, lossUsd := 0 } }

/-- A non-stable custody whose oracle resolves `exVolatileFeed` to a
close-only band. -/
def exVolatileCustody : Custody :=
  { exCustody with key := 2, isStable := false }

/-- A short position with zero collateral posted, used by the liquidation
fixtures. -/
def exShortPosition : Position :=
  { side := .Short, sizeUsd := 100, collateralUsd := 0, collateralAmount := 0,
    lockedAmount := 0, price := 0, updateTime := 0 }

/-- A short position with 50 USD collateral posted, used by the
withdrawal fixtures. -/
def exShortPosition50 : Position :=
  { exShortPosition with collateralUsd := 50 }

/-! ## C5: closeOnly gating -/

/-- C5: `liquidate` ignores the `closeOnly` flags of both resolved bands —
given the resolutions, its result is `liquidateFromBands` of the bare
bands, with no dependence on either flag — whereas `remove_collateral`
fails with `InvalidOraclePrice` whenever either band is close-only
(granted its earlier permission and argument gates pass). -/
theorem close_only_gating :
    (∀ (perm : Permissions) (policy : PoolPolicy) (fns : CustodyFns)
       (cu cc : Custody) (pos : Position) (fA fB : PythFeed) (t : Int)
       (tmn tmx : OraclePrice) (f1 : Bool) (cmn cmx : OraclePrice)
       (f2 : Bool),
       (perm.allowClosePosition && cu.permissions.allowClosePosition)
         = true →
       newFromOracle fA cu.oracle t cu.isStable = .ok (tmn, tmx, f1) →
       newFromOracle fB cc.oracle t cc.isStable = .ok (cmn, cmx, f2) →
       liquidate perm policy fns cu cc pos fA fB t
         = liquidateFromBands policy fns cu cc pos t tmn tmx cmn cmx) ∧
    (∀ (perm : Permissions) (policy : PoolPolicy) (cu cc : Custody)
       (pos : Position) (amt : Nat) (fA fB : PythFeed) (t : Int)
       (tmn tmx : OraclePrice) (f1 : Bool) (cmn cmx : OraclePrice)
       (f2 : Bool),
       (perm.allowCollateralWithdrawal &&
         cu.permissions.allowCollateralWithdrawal) = true →
       ¬ (amt = 0 ∨ amt ≥ pos.collateralUsd) →
       newFromOracle fA cu.oracle t cu.isStable = .ok (tmn, tmx, f1) →
       newFromOracle fB cc.oracle t cc.isStable = .ok (cmn, cmx, f2) →
       (f1 || f2) = true →
       removeCollateral perm policy cu cc pos amt fA fB t
         = .error .InvalidOraclePrice) := by
  constructor
  · intro perm policy fns cu cc pos fA fB t tmn tmx f1 cmn cmx f2 hperm h1 h2
    unfold liquidate
    rw [if_pos hperm]
    simp only [h1, h2, bindOk]
  · intro perm policy cu cc pos amt fA fB t tmn tmx f1 cmn cmx f2 hperm harg
      h1 h2 hco
    unfold removeCollateral
    rw [if_pos hperm, if_neg harg]
    simp only [h1, h2, bindOk]
    unfold removeCollateralFromBands
    rw [if_pos hco]

/-- Witness for C5 at the close-only fixture: the liquidation outcome is
the band-only function, and the withdrawal fails with
`InvalidOraclePrice`. -/
theorem close_only_gating_witness :
    liquidate ⟨true, true⟩ exPolicy exFns exVolatileCustody
        exVolatileCustody exShortPosition exVolatileFeed exVolatileFeed 100
      = liquidateFromBands exPolicy exFns exVolatileCustody
          exVolatileCustody exShortPosition 100 ⟨1900, -2⟩ ⟨2100, -2⟩
          ⟨1900, -2⟩ ⟨2100, -2⟩ ∧
    removeCollateral ⟨true, true⟩ exPolicy exVolatileCustody
        exVolatileCustody exShortPosition50 10 exVolatileFeed exVolatileFeed
        100
      = .error .InvalidOraclePrice :=
  ⟨close_only_gating.1 ⟨true, true⟩ exPolicy exFns exVolatileCustody
      exVolatileCustody exShortPosition exVolatileFeed exVolatileFeed 100
      ⟨1900, -2⟩ ⟨2100, -2⟩ true ⟨1900, -2⟩ ⟨2100, -2⟩ true rfl rfl rfl,
    close_only_gating.2 ⟨true, true⟩ exPolicy exVolatileCustody
      exVolatileCustody exShortPosition50 10 exVolatileFeed exVolatileFeed
      100 ⟨1900, -2⟩ ⟨2100, -2⟩ true ⟨1900, -2⟩ ⟨2100, -2⟩ true rfl
      (by decide) rfl rfl rfl⟩

/-! ## C2: exit fee conversion price -/

/-- C2 counterexample: at a concrete short position with a collateral band
`[19.00, 21.00]`, `get_exit_price_and_fee` returns fee 52 (converted at
the band's `minPrice`), while the spec's claimed conversion at `maxPrice`
yields 47. -/
theorem exit_fee_counterexample :
    ∃ r f,
      getExitPriceAndFee exPolicy exCustody exVolatileCustody
          exShortPosition exStableFeed exVolatileFeed 100 = .ok r ∧
      specExitFeeAtCollateralMax exPolicy exCustody exVolatileCustody
          exShortPosition exStableFeed exVolatileFeed 100 = .ok f ∧
      r.fee ≠ f :=
  ⟨_, _, rfl, rfl, by decide⟩

/-- C2 amended: on the Short/virtual path the exit fee is the base exit
fee converted to USD at the asset band's `maxPrice` and then to
collateral-token units at the collateral band's `minPrice` (the lower
bound — USD→token conversion at the lower price yields the larger token
fee). -/
theorem exit_fee_at_collateral_min (policy : PoolPolicy)
    (cu cc : Custody) (pos : Position) (fA fB : PythFeed) (t : Int)
    (res : PriceAndFee)
    (hside : pos.side = Side.Short ∨ cu.isVirtual = true)
    (h : getExitPriceAndFee policy cu cc pos fA fB t = .ok res) :
    ∃ tmn tmx f1 cmn cmx f2 fee0 feeUsd,
      newFromOracle fA cu.oracle t cu.isStable = .ok (tmn, tmx, f1) ∧
      newFromOracle fB cc.oracle t cc.isStable = .ok (cmn, cmx, f2) ∧
      policy.getExitFee pos.sizeUsd cu = .ok fee0 ∧
      tmx.getAssetAmountUsd fee0 cu.decimals = .ok feeUsd ∧
      cmn.getTokenAmount feeUsd cc.decimals = .ok res.fee := by
  unfold getExitPriceAndFee at h
  rw [bindOkIff] at h
  obtain ⟨⟨tmn, tmx, f1⟩, h1, h⟩ := h
  dsimp only at h
  rw [bindOkIff] at h
  obtain ⟨⟨cmn, cmx, f2⟩, h2, h⟩ := h
  dsimp only at h
  rw [bindOkIff] at h
  obtain ⟨price, hp, h⟩ := h
  rw [bindOkIff] at h
  obtain ⟨fee0, hf0, h⟩ := h
  rw [if_pos hside] at h
  rw [bindOkIff] at h
  obtain ⟨feeUsd, hfu, h⟩ := h
  rw [bindOkIff] at h
  obtain ⟨fee, hfee, h⟩ := h
  injection h with h
  refine ⟨tmn, tmx, f1, cmn, cmx, f2, fee0, feeUsd, h1, h2, hf0, hfu, ?_⟩
  rw [← h]
  exact hfee

/-- Witness for the amended C2 at the counterexample fixture. -/
theorem exit_fee_at_collateral_min_witness :
    ∃ tmn tmx f1 cmn cmx f2 fee0 feeUsd,
      newFromOracle exStableFeed exCustody.oracle 100 exCustody.isStable
        = .ok (tmn, tmx, f1) ∧
      newFromOracle exVolatileFeed exVolatileCustody.oracle 100
        exVolatileCustody.isStable = .ok (cmn, cmx, f2) ∧
      exPolicy.getExitFee exShortPosition.sizeUsd exCustody = .ok fee0 ∧
      tmx.getAssetAmountUsd fee0 exCustody.decimals = .ok feeUsd ∧
      cmn.getTokenAmount feeUsd exVolatileCustody.decimals
        = .ok (⟨0, 52⟩ : PriceAndFee).fee :=
  exit_fee_at_collateral_min exPolicy exCustody exVolatileCustody
    exShortPosition exStableFeed exVolatileFeed 100 ⟨0, 52⟩ (Or.inl rfl) rfl

/-! ## Inversion of successful handler runs -/

theorem checkedAddU64_ok {a b c : Nat} (h : checkedAddU64 a b = .ok c) :
    c = a + b := by
  unfold checkedAddU64 at h
  split at h
  · injection h with h
    exact h.symm
  · cases h

theorem checkedSubU64_ok {a b c : Nat} (h : checkedSubU64 a b = .ok c) :
    c = a - b ∧ b ≤ a := by
  unfold checkedSubU64 at h
  split at h
  · injection h with h
    exact ⟨h.symm, by assumption⟩
  · cases h

/-- Characterization of every successful `remove_collateral` run: the
intermediate quantities exist, the final collateral-custody record is the
initial one with the fee counter bumped, the posted-collateral counter
decremented and the protocol fee skimmed unconditionally, and the asset
custody slot receives a copy of it exactly when the position is Long on a
non-virtual custody. -/
theorem removeCollateral_ok_inv (perm : Permissions) (policy : PoolPolicy)
    (cu cc : Custody) (pos : Position) (amt : Nat) (fA fB : PythFeed)
    (t : Int) (res : RemoveCollateralResult)
    (h : removeCollateral perm policy cu cc pos amt fA fB t = .ok res) :
    ∃ (tmn tmx : OraclePrice) (f1 : Bool) (cmn cmx : OraclePrice) (f2 : Bool)
      (feeUsd feeAmt collateral pf : Nat),
      newFromOracle fA cu.oracle t cu.isStable = .ok (tmn, tmx, f1) ∧
      newFromOracle fB cc.oracle t cc.isStable = .ok (cmn, cmx, f2) ∧
      policy.getCollateralFee amt cc = .ok feeUsd ∧
      cmn.getTokenAmount feeUsd cc.decimals = .ok feeAmt ∧
      cmx.getTokenAmount amt cc.decimals = .ok collateral ∧
      policy.getFeeAmount cu.fees.protocolShare feeAmt = .ok pf ∧
      res.position = { pos with
        updateTime := t
        collateralUsd := pos.collateralUsd - amt
        collateralAmount := pos.collateralAmount - collateral } ∧
      res.collateralCustody = { cc with
        collectedFees := { cc.collectedFees with closePositionUsd := wrappingAddU64 cc.collectedFees.closePositionUsd feeUsd }
        assets := { cc.assets with
          collateral := cc.assets.collateral - collateral
          protocolFees := cc.assets.protocolFees + pf } } ∧
      res.transfers = [(TransferDest.receivingAccount,
        collateral - feeAmt)] ∧
      res.custody = (if pos.side = Side.Long ∧ ¬ cu.isVirtual
        then res.collateralCustody else cu) := by
  unfold removeCollateral at h
  split at h
  case isFalse => cases h
  case isTrue =>
    split at h
    case isTrue => cases h
    case isFalse =>
      rw [bindOkIff] at h
      obtain ⟨⟨tmn, tmx, f1⟩, h1, h⟩ := h
      try dsimp only at h
      rw [bindOkIff] at h
      obtain ⟨⟨cmn, cmx, f2⟩, h2, h⟩ := h
      try dsimp only at h
      unfold removeCollateralFromBands at h
      split at h
      case isTrue => cases h
      case isFalse =>
        rw [bindOkIff] at h
        obtain ⟨feeUsd, hfu, h⟩ := h
        try dsimp only at h
        rw [bindOkIff] at h
        obtain ⟨feeAmt, hfa, h⟩ := h
        try dsimp only at h
        rw [bindOkIff] at h
        obtain ⟨collateral, hcl, h⟩ := h
        try dsimp only at h
        rw [bindOkIff] at h
        obtain ⟨updColl, hup, h⟩ := h
        try dsimp only at h
        split at h
        case isTrue => cases h
        case isFalse =>
          rw [bindOkIff] at h
          obtain ⟨colUsd, hcu1, h⟩ := h
          try dsimp only at h
          rw [bindOkIff] at h
          obtain ⟨colAmt, hca, h⟩ := h
          try dsimp only at h
          rw [bindOkIff] at h
          obtain ⟨lev, hlev, h⟩ := h
          try dsimp only at h
          split at h
          case isTrue => cases h
          case isFalse =>
            rw [bindOkIff] at h
            obtain ⟨ccColl, hcc, h⟩ := h
            try dsimp only at h
            rw [bindOkIff] at h
            obtain ⟨pf, hpf, h⟩ := h
            try dsimp only at h
            rw [bindOkIff] at h
            obtain ⟨pfv, hpfv, h⟩ := h
            try dsimp only at h
            injection h with h
            obtain ⟨hup', _⟩ := checkedSubU64_ok hup
            obtain ⟨hcu1', _⟩ := checkedSubU64_ok hcu1
            obtain ⟨hca', _⟩ := checkedSubU64_ok hca
            obtain ⟨hcc', _⟩ := checkedSubU64_ok hcc
            have hpfv' := checkedAddU64_ok hpfv
            subst h hup' hcu1' hca' hcc' hpfv'
            exact ⟨tmn, tmx, f1, cmn, cmx, f2, feeUsd, feeAmt, collateral,
              pf, h1, h2, hfu, hfa, hcl, hpf, rfl, rfl, rfl, rfl⟩

/-- Characterization of every successful `liquidate` run: the liquidation
reward is the `liquidation` fee rate applied to `size_usd`, converted to
collateral tokens at the collateral band's `maxPrice`; the reward transfer
to the liquidator's rewards account is the only transfer executed; and the
asset custody slot receives a copy of the mutated collateral custody
exactly on the Long/non-virtual branch. -/
theorem liquidate_ok_inv (perm : Permissions) (policy : PoolPolicy)
    (fns : CustodyFns) (cu cc : Custody) (pos : Position)
    (fA fB : PythFeed) (t : Int) (res : LiquidateResult)
    (h : liquidate perm policy fns cu cc pos fA fB t = .ok res) :
    ∃ (tmn tmx : OraclePrice) (f1 : Bool) (cmn cmx : OraclePrice) (f2 : Bool)
      (rewardUsd reward : Nat),
      newFromOracle fA cu.oracle t cu.isStable = .ok (tmn, tmx, f1) ∧
      newFromOracle fB cc.oracle t cc.isStable = .ok (cmn, cmx, f2) ∧
      policy.getFeeAmount cu.fees.liquidation pos.sizeUsd = .ok rewardUsd ∧
      cmx.getTokenAmount rewardUsd cc.decimals = .ok reward ∧
      res.transfers = [(TransferDest.rewardsReceivingAccount, reward)] ∧
      (pos.side = Side.Long ∧ ¬ cu.isVirtual →
        res.custody = res.collateralCustody) := by
  unfold liquidate at h
  split at h
  case isFalse => cases h
  case isTrue =>
    rw [bindOkIff] at h
    obtain ⟨⟨tmn, tmx, f1⟩, h1, h⟩ := h
    try dsimp only at h
    rw [bindOkIff] at h
    obtain ⟨⟨cmn, cmx, f2⟩, h2, h⟩ := h
    try dsimp only at h
    unfold liquidateFromBands at h
    rw [bindOkIff] at h
    obtain ⟨lev, hlev, h⟩ := h
    try dsimp only at h
    split at h
    case isTrue => cases h
    case isFalse =>
      rw [bindOkIff] at h
      obtain ⟨⟨totalOut, fee0, profit, loss⟩, hclose, h⟩ := h
      try dsimp only at h
      rw [bindOkIff] at h
      obtain ⟨feeUsd, hfu, h⟩ := h
      try dsimp only at h
      rw [bindOkIff] at h
      obtain ⟨feeAmt, hfa, h⟩ := h
      try dsimp only at h
      rw [bindOkIff] at h
      obtain ⟨rewardUsd, hru, h⟩ := h
      try dsimp only at h
      rw [bindOkIff] at h
      obtain ⟨reward, hrw, h⟩ := h
      try dsimp only at h
      rw [bindOkIff] at h
      obtain ⟨rem, hrem, h⟩ := h
      try dsimp only at h
      rw [bindOkIff] at h
      obtain ⟨cc1, hcc1, h⟩ := h
      try dsimp only at h
      rw [bindOkIff] at h
      obtain ⟨avail, havail, h⟩ := h
      try dsimp only at h
      split at h
      case isTrue => cases h
      case isFalse =>
        rw [bindOkIff] at h
        obtain ⟨cc3, hcc3, h⟩ := h
        try dsimp only at h
        rw [bindOkIff] at h
        obtain ⟨collat, hcollat, h⟩ := h
        try dsimp only at h
        rw [bindOkIff] at h
        obtain ⟨protocolFee, hprot, h⟩ := h
        try dsimp only at h
        rw [bindOkIff] at h
        obtain ⟨cc5, hskim, h⟩ := h
        try dsimp only at h
        rw [bindOkIff] at h
        obtain ⟨size, hsize, h⟩ := h
        try dsimp only at h
        split at h
        case isTrue hcond =>
          rw [bindOkIff] at h
          obtain ⟨vol, hvol, h⟩ := h
          try dsimp only at h
          rw [bindOkIff] at h
          obtain ⟨cc9, hrp, h⟩ := h
          try dsimp only at h
          rw [bindOkIff] at h
          obtain ⟨cc10, hbr, h⟩ := h
          try dsimp only at h
          injection h with h
          subst h
          exact ⟨tmn, tmx, f1, cmn, cmx, f2, rewardUsd, reward, h1, h2,
            hru, hrw, rfl, fun _ => rfl⟩
        case isFalse hcond =>
          rw [bindOkIff] at h
          obtain ⟨vol, hvol, h⟩ := h
          try dsimp only at h
          rw [bindOkIff] at h
          obtain ⟨⟨cu4, cc6⟩, hrp, h⟩ := h
          try dsimp only at h
          rw [bindOkIff] at h
          obtain ⟨cc7, hbr, h⟩ := h
          try dsimp only at h
          injection h with h
          subst h
          exact ⟨tmn, tmx, f1, cmn, cmx, f2, rewardUsd, reward, h1, h2,
            hru, hrw, rfl, fun hh => absurd hh hcond⟩

/-! ## C3: custody replication condition -/

/-- A Long position fixture with no collateral posted. -/
def exLongPosition : Position := { exShortPosition with side := .Long }

/-- A Long position with 50 USD collateral and 1000 posted base units. -/
def exLongPosition50 : Position :=
  { side := .Long, sizeUsd := 100, collateralUsd := 50,
    collateralAmount := 1000, lockedAmount := 0, price := 0,
    updateTime := 0 }

/-- `exCustody` with 1000 base units posted collateral. -/
def exCustodyColl : Custody :=
  { exCustody with
    assets := { owned := 1000000, collateral := 1000, protocolFees := 0 } }

/-- C3 counterexample: a successful liquidation of a SHORT position whose
asset and collateral custody slots hold the same (non-virtual) custody
record leaves the two in-memory records different — the replication is
keyed on `side == Long && !is_virtual`, not on the two slots denoting the
same instrument. -/
theorem same_custody_sync_counterexample :
    ∃ r, liquidate ⟨true, true⟩ exPolicy exFns exCustody exCustody
        exShortPosition exStableFeed exStableFeed 100 = .ok r ∧
      r.custody ≠ r.collateralCustody :=
  ⟨_, rfl, by decide⟩

/-- C3 amended: after every successful `liquidate` or `remove_collateral`
call in which the position side is Long and the asset custody is not
virtual, the collateral-custody record is replicated into the
asset-custody slot, leaving the two in-memory records identical. -/
theorem sync_on_long_nonvirtual :
    (∀ (perm : Permissions) (policy : PoolPolicy) (fns : CustodyFns)
       (cu cc : Custody) (pos : Position) (fA fB : PythFeed) (t : Int)
       (res : LiquidateResult),
       liquidate perm policy fns cu cc pos fA fB t = .ok res →
       pos.side = Side.Long → cu.isVirtual = false →
       res.custody = res.collateralCustody) ∧
    (∀ (perm : Permissions) (policy : PoolPolicy) (cu cc : Custody)
       (pos : Position) (amt : Nat) (fA fB : PythFeed) (t : Int)
       (res : RemoveCollateralResult),
       removeCollateral perm policy cu cc pos amt fA fB t = .ok res →
       pos.side = Side.Long → cu.isVirtual = false →
       res.custody = res.collateralCustody) := by
  constructor
  · intro perm policy fns cu cc pos fA fB t res h hside hvirt
    obtain ⟨_, _, _, _, _, _, _, _, _, _, _, _, _, hsync⟩ :=
      liquidate_ok_inv perm policy fns cu cc pos fA fB t res h
    exact hsync ⟨hside, by simp [hvirt]⟩
  · intro perm policy cu cc pos amt fA fB t res h hside hvirt
    obtain ⟨_, _, _, _, _, _, _, _, _, _, _, _, _, _, _, _, _, _, _,
      hcust⟩ := removeCollateral_ok_inv perm policy cu cc pos amt fA fB t
        res h
    rw [hcust, if_pos ⟨hside, by simp [hvirt]⟩]

/-- Witness for the amended C3: a Long liquidation and a Long withdrawal
both leave the two custody slots identical. -/
theorem sync_on_long_nonvirtual_witness :
    (∃ res, liquidate ⟨true, true⟩ exPolicy exFns exCustody exCustody
        exLongPosition exStableFeed exStableFeed 100 = .ok res ∧
      res.custody = res.collateralCustody) ∧
    (∃ res, removeCollateral ⟨true, true⟩ exPolicy exCustodyColl
        exCustodyColl exLongPosition50 10 exStableFeed exStableFeed 100
        = .ok res ∧
      res.custody = res.collateralCustody) :=
  ⟨⟨_, rfl, sync_on_long_nonvirtual.1 ⟨true, true⟩ exPolicy exFns exCustody
      exCustody exLongPosition exStableFeed exStableFeed 100 _ rfl rfl rfl⟩,
   ⟨_, rfl, sync_on_long_nonvirtual.2 ⟨true, true⟩ exPolicy exCustodyColl
      exCustodyColl exLongPosition50 10 exStableFeed exStableFeed 100 _ rfl
      rfl rfl⟩⟩

/-! ## C4: protocol fee skim -/

/-- C4: in `liquidate`, the protocol fee share is paid into the
protocol-fees counter only if `check_available_amount` allows, and is
silently skipped (no error, custody unchanged) otherwise; in
`remove_collateral` the protocol fee share is added to the counter on
every successful call, unconditionally. -/
theorem protocol_fee_skim_policy :
    (∀ (policy : PoolPolicy) (pf : Nat) (c : Custody),
       policy.checkAvailableAmount pf c = .ok false →
       liquidateSkim policy pf c = .ok c) ∧
    (∀ (policy : PoolPolicy) (pf : Nat) (c c' : Custody),
       policy.checkAvailableAmount pf c = .ok true →
       liquidateSkim policy pf c = .ok c' →
       c'.assets.protocolFees = c.assets.protocolFees + pf ∧
       c'.assets.owned = c.assets.owned - pf) ∧
    (∀ (perm : Permissions) (policy : PoolPolicy) (cu cc : Custody)
       (pos : Position) (amt : Nat) (fA fB : PythFeed) (t : Int)
       (res : RemoveCollateralResult),
       removeCollateral perm policy cu cc pos amt fA fB t = .ok res →
       ∃ feeAmt pf,
         policy.getFeeAmount cu.fees.protocolShare feeAmt = .ok pf ∧
         res.collateralCustody.assets.protocolFees
           = cc.assets.protocolFees + pf) := by
  refine ⟨?_, ?_, ?_⟩
  · intro policy pf c h
    unfold liquidateSkim
    rw [h, bindOk, if_neg (by simp)]
  · intro policy pf c c' h h2
    unfold liquidateSkim at h2
    rw [h, bindOk, if_pos rfl] at h2
    rw [bindOkIff] at h2
    obtain ⟨pfv, hpfv, h2⟩ := h2
    try dsimp only at h2
    rw [bindOkIff] at h2
    obtain ⟨ow, how, h2⟩ := h2
    try dsimp only at h2
    injection h2 with h2
    rw [← h2]
    exact ⟨(checkedAddU64_ok hpfv).symm ▸ rfl,
      ((checkedSubU64_ok how).1).symm ▸ rfl⟩
  · intro perm policy cu cc pos amt fA fB t res h
    obtain ⟨_, _, _, _, _, _, _, feeAmt, _, pf, _, _, _, _, _, hpf, _,
      hccres, _, _⟩ := removeCollateral_ok_inv perm policy cu cc pos amt
        fA fB t res h
    refine ⟨feeAmt, pf, hpf, ?_⟩
    rw [hccres]

/-- `exPolicy` with a capacity check that always refuses. -/
def exPolicyNoCap : PoolPolicy :=
  { exPolicy with checkAvailableAmount := fun _ _ => .ok false }

/-- Witness for C4: the skim is skipped without error under a refusing
capacity check, applied under an accepting one, and a successful
withdrawal skims unconditionally. -/
theorem protocol_fee_skim_policy_witness :
    liquidateSkim exPolicyNoCap 5 exCustody = .ok exCustody ∧
    (∃ c', liquidateSkim exPolicy 5 exCustody = .ok c' ∧
      c'.assets.protocolFees = exCustody.assets.protocolFees + 5 ∧
      c'.assets.owned = exCustody.assets.owned - 5) ∧
    (∃ feeAmt pf,
      exPolicy.getFeeAmount exCustodyColl.fees.protocolShare feeAmt
        = .ok pf ∧
      ∃ res, removeCollateral ⟨true, true⟩ exPolicy exCustodyColl
          exCustodyColl exLongPosition50 10 exStableFeed exStableFeed 100
          = .ok res ∧
        res.collateralCustody.assets.protocolFees
          = exCustodyColl.assets.protocolFees + pf) := by
  refine ⟨protocol_fee_skim_policy.1 exPolicyNoCap 5 exCustody rfl,
    ⟨_, rfl, protocol_fee_skim_policy.2.1 exPolicy 5 exCustody _ rfl rfl⟩,
    ?_⟩
  obtain ⟨feeAmt, pf, hpf, hres⟩ := protocol_fee_skim_policy.2.2
    ⟨true, true⟩ exPolicy exCustodyColl exCustodyColl exLongPosition50 10
    exStableFeed exStableFeed 100 _ rfl
  exact ⟨feeAmt, pf, hpf, _, rfl, hres⟩

/-! ## C6: a successful liquidation executes exactly one transfer -/

/-- C6: every successful `liquidate` call executes exactly one token
transfer — the liquidation reward (the `liquidation` fee rate applied to
`size_usd`, converted at the collateral band's `maxPrice`) to the
liquidator's rewards account; no transfer to the position owner's
receiving account occurs (the residual payout is commented out in the
source). -/
theorem liquidation_single_transfer (perm : Permissions)
    (policy : PoolPolicy) (fns : CustodyFns) (cu cc : Custody)
    (pos : Position) (fA fB : PythFeed) (t : Int) (res : LiquidateResult)
    (h : liquidate perm policy fns cu cc pos fA fB t = .ok res) :
    ∃ (tmn tmx : OraclePrice) (f1 : Bool) (cmn cmx : OraclePrice)
      (f2 : Bool) (rewardUsd reward : Nat),
      newFromOracle fA cu.oracle t cu.isStable = .ok (tmn, tmx, f1) ∧
      newFromOracle fB cc.oracle t cc.isStable = .ok (cmn, cmx, f2) ∧
      policy.getFeeAmount cu.fees.liquidation pos.sizeUsd = .ok rewardUsd ∧
      cmx.getTokenAmount rewardUsd cc.decimals = .ok reward ∧
      res.transfers = [(TransferDest.rewardsReceivingAccount, reward)] := by
  obtain ⟨tmn, tmx, f1, cmn, cmx, f2, rewardUsd, reward, h1, h2, hru, hrw,
    htr, _⟩ := liquidate_ok_inv perm policy fns cu cc pos fA fB t res h
  exact ⟨tmn, tmx, f1, cmn, cmx, f2, rewardUsd, reward, h1, h2, hru, hrw,
    htr⟩

/-- Witness for C6 at the Short-liquidation fixture. -/
theorem liquidation_single_transfer_witness :
    ∃ res, liquidate ⟨true, true⟩ exPolicy exFns exCustody exCustody
        exShortPosition exStableFeed exStableFeed 100 = .ok res ∧
      ∃ (tmn tmx : OraclePrice) (f1 : Bool) (cmn cmx : OraclePrice)
        (f2 : Bool) (rewardUsd reward : Nat),
        newFromOracle exStableFeed exCustody.oracle 100 exCustody.isStable
          = .ok (tmn, tmx, f1) ∧
        newFromOracle exStableFeed exCustody.oracle 100 exCustody.isStable
          = .ok (cmn, cmx, f2) ∧
        exPolicy.getFeeAmount exCustody.fees.liquidation
          exShortPosition.sizeUsd = .ok rewardUsd ∧
        cmx.getTokenAmount rewardUsd exCustody.decimals = .ok reward ∧
        res.transfers = [(TransferDest.rewardsReceivingAccount, reward)] :=
  ⟨_, rfl, liquidation_single_transfer ⟨true, true⟩ exPolicy exFns exCustody
    exCustody exShortPosition exStableFeed exStableFeed 100 _ rfl⟩

/-- Witness for C8: withdrawing 0 USD is rejected with
`InvalidArgument`. -/
theorem remove_collateral_rejects_bad_amount_witness :
    removeCollateral ⟨true, true⟩ exPolicy exCustody exCustody
        exShortPosition50 0 exStableFeed exStableFeed 100
      = .error .InvalidArgument :=
  remove_collateral_rejects_bad_amount ⟨true, true⟩ exPolicy exCustody
    exCustody exShortPosition50 0 exStableFeed exStableFeed 100 rfl rfl
    (Or.inl rfl)

end Flash
